import Mathlib

/-!
Shallow embedding of src/main.py: a Flask web app that uploads images,
asks Gemini for a title/description, stores image + metadata JSON in a
GCS bucket, and serves a view page with a signed URL.

External services (Secret Manager, Gemini, GCS transport, URL signing,
the json library on arbitrary text) are modelled as explicit oracle
parameters; the object store and the local /tmp directory are explicit
association lists from keys/paths to contents.  Control flow, branch
conditions, response strings and status codes are translated line by
line from src/main.py.
-/

/-- A parsed JSON object as the pipeline consumes it: Python code only
ever accesses the keys "title" and "description" via dict.get, so a
record of those two optional fields models the dict faithfully. -/
structure JsonDict where
  title : Option String
  description : Option String
deriving DecidableEq, Repr

/-- Contents of a stored object or local temp file: either raw image
bytes, or the text json.dump produces for a title/description record. -/
inductive ObjData where
  | bytes : String → ObjData
  | jsonFile : String → String → ObjData
deriving DecidableEq, Repr

/-- Association map from names (object keys / file paths) to contents. -/
def ObjMap : Type := List (String × ObjData)

/-- Lookup: first binding wins (insertion puts the newest first). -/
def getKey : ObjMap → String → Option ObjData
  | [], _ => none
  | (k, v) :: rest, k' => if k = k' then some v else getKey rest k'

/-- Remove every binding of a key. -/
def delKey : ObjMap → String → ObjMap
  | [], _ => []
  | (a, v) :: rest, k => if a = k then delKey rest k else (a, v) :: delKey rest k

/-- Insert or overwrite a key (GCS uploads overwrite silently). -/
def setKey (m : ObjMap) (k : String) (v : ObjData) : ObjMap :=
  (k, v) :: delKey m k

/-- World state visible to the pipelines: local temp files and the
objects of the single GCS bucket. -/
structure World where
  tmp : ObjMap
  store : ObjMap

/-- An HTTP response as produced by the route handlers: plain text with
a status code, a redirect, one of the two rendered templates, or an
unhandled exception escaping to the framework. -/
inductive HResp where
  | text : String → Nat → HResp
  | redirect : String → HResp
  | renderView : String → String → String → String → HResp
  | renderIndex : List String → String → HResp
  | crash : HResp
deriving DecidableEq, Repr

/-- HTTP status of a response (Flask: render 200, redirect 302,
unhandled exception 500). -/
def HResp.status : HResp → Nat
  | .text _ s => s
  | .redirect _ => 302
  | .renderView _ _ _ _ => 200
  | .renderIndex _ _ => 200
  | .crash => 500

/-! ## AI Captioning Client (upload_to_gemini, generative_ai) -/

/-- One run of the external Gemini service as observed by
generative_ai: the upload step fails (upload_to_gemini catches the
exception and returns None), some other step raises an exception, or
the chat completes and response.text is the given string. -/
inductive AIBehavior where
  | uploadFail : AIBehavior
  | otherExn : AIBehavior
  | response : String → AIBehavior
deriving DecidableEq, Repr

/-- upload_to_gemini: returns the uploaded file handle, or None when
genai.upload_file raised (the except branch logs and returns None). -/
def upload_to_gemini : AIBehavior → Option Unit
  | .uploadFail => none
  | _ => some ()

/-- The fence stripping of generative_ai:
response.text.replace("```json", "").replace("```", "").strip(). -/
def stripFences (t : String) : String :=
  ((t.replace "```json" "").replace "```" "").trim

/-- Sentinel returned when upload_to_gemini fails. -/
def uploadErrorSentinel : JsonDict :=
  ⟨some "Upload Error", some "Failed to upload image to Gemini AI."⟩

/-- Sentinel returned when json.loads rejects the stripped response. -/
def invalidResponseSentinel : JsonDict :=
  ⟨some "Invalid Response", some "Gemini AI returned an invalid response."⟩

/-- Sentinel returned by the final except Exception branch. -/
def errorSentinel : JsonDict :=
  ⟨some "Error", some "An error occurred while processing the image."⟩

/-- generative_ai: send the image, ask for JSON, strip fences, parse.
loads models json.loads on the stripped text (error means
json.JSONDecodeError).  Every failure path degrades to a sentinel; the
function is total, mirroring that no exception escapes the handler. -/
def generative_ai (loads : String → Except Unit JsonDict) (b : AIBehavior) : JsonDict :=
  match upload_to_gemini b, b with
  | none, _ => uploadErrorSentinel
  | some _, .response t =>
      match loads (stripFences t) with
      | .ok o => o
      | .error _ => invalidResponseSentinel
  | some _, _ => errorSentinel

/-! ## Secret Provider (get_gcs_credentials, initialize_clients) -/

/-- Outcomes of the two Secret Manager fetches at process start. -/
structure InitEnv where
  gcsSecret : Except Unit String
  geminiSecret : Except Unit String

/-- Process-wide state touched during initialization: the temp
credential file, the credentials env var, whether genai.configure ran,
and whether the Gemini failure was logged. -/
structure InitState where
  credFile : Option String
  envCredSet : Bool
  geminiConfigured : Bool
  loggedGeminiError : Bool
deriving DecidableEq, Repr

/-- Initial process state before any initialization ran. -/
def initState0 : InitState := ⟨none, false, false, false⟩

/-- get_gcs_credentials: fetch the GCS service-account key (failure
propagates with nothing written), save it to /tmp, set the env var;
then fetch the Gemini key, configure genai on success, and on failure
log the error and re-raise to the caller. -/
def get_gcs_credentials (env : InitEnv) (s : InitState) :
    Except Unit String × InitState :=
  match env.gcsSecret with
  | .error e => (.error e, s)
  | .ok secretJson =>
    let s1 : InitState := { s with credFile := some secretJson, envCredSet := true }
    match env.geminiSecret with
    | .ok _ => (.ok "/tmp/gcs_service_account.json", { s1 with geminiConfigured := true })
    | .error e => (.error e, { s1 with loggedGeminiError := true })

/-- Marker for a constructed storage.Client. -/
structure StorageClient where
  mk' ::
deriving DecidableEq, Repr

/-- initialize_clients: call get_gcs_credentials, then construct and
return the storage client.  An exception from get_gcs_credentials
propagates, so storage.Client() is never reached on that path. -/
def initialize_clients (env : InitEnv) (s : InitState) :
    Except Unit StorageClient × InitState :=
  match get_gcs_credentials env s with
  | (.error e, s') => (.error e, s')
  | (.ok _, s') => (.ok ⟨⟩, s')

/-! ## Object Store Gateway (upload_to_gcs, list_uploaded_images,
generate_temporary_url) -/

/-- Python truthiness of the bucket_name global: unset environment
variable (None) or empty string is falsy. -/
def bucketUnset : Option String → Bool
  | none => true
  | some s => s.isEmpty

/-- upload_to_gcs: read the local source file and write it to the
destination key.  ok models whether the GCS transport succeeds; any
failure (including a missing local file) is caught, logged and turned
into False with the store unchanged — nothing escapes this boundary. -/
def upload_to_gcs (ok : Bool) (tmp store : ObjMap) (src dest : String) :
    Bool × ObjMap :=
  if ok then
    match getKey tmp src with
    | some content => (true, setKey store dest content)
    | none => (false, store)
  else (false, store)

/-- list_uploaded_images: names of blobs ending in .jpg or .jpeg; any
listing failure (ok = false) is caught and becomes the empty list. -/
def list_uploaded_images (ok : Bool) (store : ObjMap) : List String :=
  if ok then
    (store.map (fun p => p.1)).filter
      (fun n => n.endsWith ".jpg" || n.endsWith ".jpeg")
  else []

/-- generate_temporary_url: inside a try/except returning None on any
failure — if the blob does not exist return None, otherwise sign it
(sign models blob.generate_signed_url; an error is the caught
exception). -/
def generate_temporary_url (sign : Except Unit String) (store : ObjMap)
    (blob_name : String) : Option String :=
  match getKey store blob_name with
  | none => none
  | some _ =>
    match sign with
    | .ok url => some url
    | .error _ => none

/-! ## os.path.splitext -/

/-- Index of the last occurrence of a character in a list, if any. -/
def lastOcc (c : Char) : List Char → Option Nat
  | [] => none
  | x :: xs =>
    match lastOcc c xs with
    | some n => some (n + 1)
    | none => if x = c then some 0 else none

/-- The root part of os.path.splitext on the character list: drop the
extension beginning at the last dot, provided that dot lies after the
last path separator and some character strictly between them is not a
dot (posixpath skips leading dots of the basename). -/
def splitextRootChars (l : List Char) : List Char :=
  match lastOcc '.' l with
  | none => l
  | some extIndex =>
    let fi : Nat :=
      match lastOcc '/' l with
      | none => 0
      | some s => s + 1
    if fi ≤ extIndex ∧
        (List.range extIndex).any
          (fun j => decide (fi ≤ j) && decide (l.get? j ≠ some '.')) then
      l.take extIndex
    else l

/-- os.path.splitext(p)[0]. -/
def splitextRoot (p : String) : String :=
  ⟨splitextRootChars p.data⟩

/-! ## Web Front End: the three routes -/

/-- GET / : 500 if the bucket name is unset, else render the gallery
with the listed images and the background color. -/
def index (bucket : Option String) (listOk : Bool) (bg : String)
    (w : World) : HResp :=
  if bucketUnset bucket then .text "GCS_BUCKET_NAME is not set" 500
  else .renderIndex (list_uploaded_images listOk w.store) bg

/-- One entry of request.files: the part name maps to a file with a
client-supplied filename and contents. -/
structure FilePart where
  filename : String
  content : String
deriving DecidableEq, Repr

/-- An upload request: the multipart form files. -/
structure UploadRequest where
  files : List (String × FilePart)

/-- request.files lookup (first match, as for a MultiDict). -/
def lookupPart : List (String × FilePart) → String → Option FilePart
  | [], _ => none
  | (k, v) :: rest, k' => if k = k' then some v else lookupPart rest k'

/-- External behavior of one upload request: the bucket configuration,
the json library, the Gemini run, whether file.save or json.dump raise
an unexpected exception, and whether each of the two GCS uploads
succeeds at the transport level. -/
structure UploadEnv where
  bucket : Option String
  loads : String → Except Unit JsonDict
  ai : AIBehavior
  saveExn : Bool
  dumpExn : Bool
  gcsImgOk : Bool
  gcsMetaOk : Bool

/-- Result of the upload route: the response, the final world, the
values the temp_path and json_path locals ended with (None when never
assigned), and whether generative_ai was invoked. -/
structure UploadResult where
  resp : HResp
  world : World
  temp_path : Option String
  json_path : Option String
  aiCalled : Bool

/-- The try/except body of upload (everything before the finally
block): validation, temp save, captioning, metadata dump, the two GCS
uploads with a short-circuiting conjunction, and the except-Exception
branch for the injected unexpected exceptions. -/
def upload_body (env : UploadEnv) (req : UploadRequest) (w : World) : UploadResult :=
  match lookupPart req.files "image" with
  | none => ⟨.text "No file uploaded" 400, w, none, none, false⟩
  | some file =>
    if file.filename = "" then ⟨.text "No file selected" 400, w, none, none, false⟩
    else
      let temp_path := "/tmp/" ++ file.filename
      if env.saveExn then
        ⟨.text "Internal Server Error" 500, w, some temp_path, none, false⟩
      else
        let w1 : World := { w with tmp := setKey w.tmp temp_path (.bytes file.content) }
        let ai_response := generative_ai env.loads env.ai
        let title := ai_response.title.getD "No title present"
        let descr := ai_response.description.getD "No description present"
        let json_filename := splitextRoot file.filename ++ ".json"
        let json_path := "/tmp/" ++ json_filename
        if env.dumpExn then
          ⟨.text "Internal Server Error" 500, w1, some temp_path, some json_path, true⟩
        else
          let w2 : World := { w1 with tmp := setKey w1.tmp json_path (.jsonFile title descr) }
          let r1 := upload_to_gcs env.gcsImgOk w2.tmp w2.store temp_path file.filename
          if r1.1 then
            let r2 := upload_to_gcs env.gcsMetaOk w2.tmp r1.2 json_path json_filename
            if r2.1 then
              ⟨.redirect ("/view?filename=" ++ file.filename), ⟨w2.tmp, r2.2⟩,
                some temp_path, some json_path, true⟩
            else
              ⟨.text "File upload failed" 500, ⟨w2.tmp, r2.2⟩,
                some temp_path, some json_path, true⟩
          else
            ⟨.text "File upload failed" 500, ⟨w2.tmp, r1.2⟩,
              some temp_path, some json_path, true⟩

/-- The finally block: remove temp_path and json_path when they were
assigned (os.remove guarded by os.path.exists). -/
def finallyClean (tmp : ObjMap) : Option String → Option String → ObjMap
  | tp, jp =>
    let t1 := match tp with | some p => delKey tmp p | none => tmp
    match jp with | some p => delKey t1 p | none => t1

/-- POST /upload : the bucket-name guard, then the try body, then the
finally cleanup applied to whatever the body left behind. -/
def upload (env : UploadEnv) (req : UploadRequest) (w : World) : UploadResult :=
  if bucketUnset env.bucket then
    ⟨.text "GCS_BUCKET_NAME is not set" 500, w, none, none, false⟩
  else
    let r := upload_body env req w
    { r with world := ⟨finallyClean r.world.tmp r.temp_path r.json_path, r.world.store⟩ }

/-- External behavior of one view request: the bucket configuration,
the json library on downloaded text, the signing outcome, and the
background color. -/
structure ViewEnv where
  bucket : Option String
  loads : String → Except Unit JsonDict
  sign : Except Unit String
  bg : String

/-- json.loads applied to blob.download_as_text(): the text json.dump
wrote parses back to exactly its record; other stored bytes go to the
json library oracle. -/
def loadsData (loads : String → Except Unit JsonDict) : ObjData → Except Unit JsonDict
  | .jsonFile t d => .ok ⟨some t, some d⟩
  | .bytes s => loads s

/-- GET /view : 400 when the filename parameter is missing or empty;
derive the metadata key; blob.exists() raises when the bucket name is
unset (view has no bucket guard, so this escapes as a crash); 404 when
the metadata object is absent; 500 on a metadata parse failure; fetch
title and description with fixed fallbacks; 500 when the signed URL is
absent; else render the view page. -/
def view_image (env : ViewEnv) (filename : Option String) (w : World) : HResp :=
  match filename with
  | none => .text "No file specified" 400
  | some f =>
    if f = "" then .text "No file specified" 400
    else
      let json_filename := splitextRoot f ++ ".json"
      if bucketUnset env.bucket then .crash
      else
        match getKey w.store json_filename with
        | none => .text "Metadata not found" 404
        | some data =>
          match loadsData env.loads data with
          | .error _ => .text "Invalid metadata format" 500
          | .ok jd =>
            let title := jd.title.getD "No title available"
            let descr := jd.description.getD "No description available"
            match generate_temporary_url env.sign w.store f with
            | none => .text "Error generating image URL" 500
            | some url => .renderView url title descr env.bg

/-! ## Association-map lemmas -/

theorem getKey_setKey_self (m : ObjMap) (k : String) (v : ObjData) :
    getKey (setKey m k v) k = some v := by
  simp [setKey, getKey]

theorem getKey_delKey_ne (m : ObjMap) (k k' : String) (h : k ≠ k') :
    getKey (delKey m k) k' = getKey m k' := by
  induction m with
  | nil => rfl
  | cons p rest ih =>
    obtain ⟨a, v⟩ := p
    by_cases ha : a = k
    · subst ha
      simp [delKey, getKey, h, ih]
    · simp [delKey, getKey, ha, ih]

theorem getKey_delKey_self (m : ObjMap) (k : String) :
    getKey (delKey m k) k = none := by
  induction m with
  | nil => rfl
  | cons p rest ih =>
    obtain ⟨a, v⟩ := p
    by_cases ha : a = k
    · simp [delKey, ha, ih]
    · simp [delKey, getKey, ha, ih]

theorem getKey_setKey_ne (m : ObjMap) (k k' : String) (v : ObjData) (h : k ≠ k') :
    getKey (setKey m k v) k' = getKey m k' := by
  simp [setKey, getKey, h, getKey_delKey_ne m k k' h]

theorem getKey_delKey_none (m : ObjMap) (a b : String)
    (h : getKey m a = none) : getKey (delKey m b) a = none := by
  by_cases hab : b = a
  · subst hab; exact getKey_delKey_self m b
  · rw [getKey_delKey_ne m b a hab]; exact h

theorem getKey_finallyClean_tp (tmp : ObjMap) (p : String) (jp : Option String) :
    getKey (finallyClean tmp (some p) jp) p = none := by
  cases jp with
  | none => simpa [finallyClean] using getKey_delKey_self tmp p
  | some q =>
    simp only [finallyClean]
    exact getKey_delKey_none _ p q (getKey_delKey_self tmp p)

theorem getKey_finallyClean_jp (tmp : ObjMap) (tp : Option String) (p : String) :
    getKey (finallyClean tmp tp (some p)) p = none := by
  cases tp with
  | none => simpa [finallyClean] using getKey_delKey_self tmp p
  | some q => simp only [finallyClean]; exact getKey_delKey_self _ p

/-! ## Claim theorems -/

/-- Claim C3: the AI Captioning Client is total (no exception reaches
its caller: the Lean model returns a plain JsonDict on every input),
and each failure mode yields exactly its fixed sentinel: an upload
failure gives the Upload Error sentinel, any other exception gives the
Error sentinel, and a response whose fence-stripped text the json
library rejects gives the Invalid Response sentinel; a successfully
parsed response is returned as-is. -/
theorem generative_ai_total_with_sentinels
    (loads : String → Except Unit JsonDict) (t : String) :
    generative_ai loads .uploadFail = uploadErrorSentinel ∧
    generative_ai loads .otherExn = errorSentinel ∧
    ((∃ o, loads (stripFences t) = .ok o ∧ generative_ai loads (.response t) = o) ∨
      (∃ e, loads (stripFences t) = .error e ∧
        generative_ai loads (.response t) = invalidResponseSentinel)) := by
  refine ⟨rfl, rfl, ?_⟩
  cases h : loads (stripFences t) with
  | ok o =>
    refine .inl ⟨o, rfl, ?_⟩
    simp [generative_ai, upload_to_gemini, h]
  | error e =>
    refine .inr ⟨e, rfl, ?_⟩
    simp [generative_ai, upload_to_gemini, h]

/-- Claim C8: signed-URL generation returns None for every key absent
from the bucket, and None whenever signing fails; it is a total
function, so nothing is raised past its boundary. -/
theorem generate_temporary_url_absent_on_failure
    (sign : Except Unit String) (store : ObjMap) (k : String) :
    (getKey store k = none → generate_temporary_url sign store k = none) ∧
    (∀ e, sign = .error e → generate_temporary_url sign store k = none) := by
  constructor
  · intro h
    simp [generate_temporary_url, h]
  · intro e he
    cases hg : getKey store k <;> simp [generate_temporary_url, hg, he]

/-- Witness for C8 at concrete inputs: a missing key, and a present key
with a failing signer, both give None. -/
theorem generate_temporary_url_absent_on_failure_witness :
    generate_temporary_url (.ok "https:u") [] "cat.jpg" = none ∧
    generate_temporary_url (.error ()) [("cat.jpg", .bytes "IMG")] "cat.jpg" = none :=
  ⟨(generate_temporary_url_absent_on_failure (.ok "https:u") [] "cat.jpg").1 rfl,
    (generate_temporary_url_absent_on_failure (.error ())
      [("cat.jpg", .bytes "IMG")] "cat.jpg").2 () rfl⟩

/-- Counterexample to claim C2 as stated: with the GCS secret available
and the Gemini secret fetch failing, initialize_clients propagates the
exception and returns no storage client — the claim that the storage
client is still constructed and usable after that failure is false. -/
theorem initialize_clients_gemini_failure_counterexample :
    (initialize_clients ⟨.ok "svc-json", .error ()⟩ initState0).1 = .error () ∧
    (initialize_clients ⟨.ok "svc-json", .error ()⟩ initState0).2.loggedGeminiError = true :=
  ⟨rfl, rfl⟩

/-- Amended C2: a failure to fetch the Gemini API key is logged and
surfaced as a fatal error to the caller of initialization, and because
get_gcs_credentials re-raises before initialize_clients reaches the
storage.Client() call, the storage client is never constructed (the
storage credential file and env var were already set, but no client
results). -/
theorem initialize_clients_gemini_failure (env : InitEnv) (s : InitState)
    (sec : String) (e : Unit)
    (hg : env.gcsSecret = .ok sec) (hm : env.geminiSecret = .error e) :
    (initialize_clients env s).1 = .error e ∧
    (initialize_clients env s).2.loggedGeminiError = true ∧
    (initialize_clients env s).2.credFile = some sec ∧
    (initialize_clients env s).2.envCredSet = true := by
  simp [initialize_clients, get_gcs_credentials, hg, hm]

/-- Witness for the amended C2 at a concrete environment. -/
theorem initialize_clients_gemini_failure_witness :
    (initialize_clients ⟨.ok "svc-json", .error ()⟩ initState0).1 = .error () ∧
    (initialize_clients ⟨.ok "svc-json", .error ()⟩ initState0).2.loggedGeminiError = true ∧
    (initialize_clients ⟨.ok "svc-json", .error ()⟩ initState0).2.credFile = some "svc-json" ∧
    (initialize_clients ⟨.ok "svc-json", .error ()⟩ initState0).2.envCredSet = true :=
  initialize_clients_gemini_failure ⟨.ok "svc-json", .error ()⟩ initState0
    "svc-json" () rfl rfl

/-- Counterexample to claim C9 as stated: with the bucket name unset,
a view request with no filename parameter returns status 400 ("No file
specified"), not a 500 at the start of the route — view_image performs
no bucket-name check. -/
theorem view_image_no_bucket_guard_counterexample :
    view_image ⟨none, fun _ => .error (), .ok "https:u", "bg"⟩ none ⟨[], []⟩ =
      .text "No file specified" 400 ∧
    (view_image ⟨none, fun _ => .error (), .ok "https:u", "bg"⟩ none ⟨[], []⟩).status ≠ 500 :=
  ⟨rfl, by simp [view_image, HResp.status]⟩

/-- Amended C9: when the bucket name is unconfigured, index and upload
return 500 at the start of the route before touching storage (upload
also leaves the world unchanged); view_image performs no such check —
it returns 400 when the filename is missing, and with a filename
present it reaches the unguarded blob.exists() storage call, which
raises an unhandled exception. -/
theorem bucket_unset_route_behavior (b : Option String) (listOk : Bool)
    (bg : String) (w : World) (ue : UploadEnv) (req : UploadRequest)
    (ve : ViewEnv) (f : String)
    (hb : bucketUnset b = true) (hu : bucketUnset ue.bucket = true)
    (hv : bucketUnset ve.bucket = true) (hf : f ≠ "") :
    index b listOk bg w = .text "GCS_BUCKET_NAME is not set" 500 ∧
    (upload ue req w).resp = .text "GCS_BUCKET_NAME is not set" 500 ∧
    (upload ue req w).world = w ∧
    view_image ve none w = .text "No file specified" 400 ∧
    view_image ve (some f) w = .crash := by
  refine ⟨by simp [index, hb], by simp [upload, hu], by simp [upload, hu], rfl, ?_⟩
  simp [view_image, hf, hv]

/-- Witness for the amended C9 at concrete inputs. -/
theorem bucket_unset_route_behavior_witness :
    index none true "bg" ⟨[], []⟩ = .text "GCS_BUCKET_NAME is not set" 500 ∧
    (upload ⟨none, fun _ => .error (), .uploadFail, false, false, true, true⟩
        ⟨[("image", ⟨"cat.jpg", "IMG"⟩)]⟩ ⟨[], []⟩).resp =
      .text "GCS_BUCKET_NAME is not set" 500 ∧
    (upload ⟨none, fun _ => .error (), .uploadFail, false, false, true, true⟩
        ⟨[("image", ⟨"cat.jpg", "IMG"⟩)]⟩ ⟨[], []⟩).world = ⟨[], []⟩ ∧
    view_image ⟨none, fun _ => .error (), .ok "https:u", "bg"⟩ none ⟨[], []⟩ =
      .text "No file specified" 400 ∧
    view_image ⟨none, fun _ => .error (), .ok "https:u", "bg"⟩ (some "cat.jpg") ⟨[], []⟩ =
      .crash :=
  bucket_unset_route_behavior none true "bg" ⟨[], []⟩
    ⟨none, fun _ => .error (), .uploadFail, false, false, true, true⟩
    ⟨[("image", ⟨"cat.jpg", "IMG"⟩)]⟩
    ⟨none, fun _ => .error (), .ok "https:u", "bg"⟩ "cat.jpg"
    rfl rfl rfl (by simp)

/-- Claim C7: when the bucket is configured and a non-empty filename is
supplied whose derived metadata key (extension replaced by .json) is
absent from the store, view_image returns 404, whatever else — in
particular an image object under the filename itself — the store holds. -/
theorem view_image_404_when_metadata_absent (env : ViewEnv) (w : World)
    (f : String) (hb : bucketUnset env.bucket = false) (hf : f ≠ "")
    (hm : getKey w.store (splitextRoot f ++ ".json") = none) :
    view_image env (some f) w = .text "Metadata not found" 404 := by
  simp [view_image, hf, hb, hm]

/-- Witness for C7: the image object cat.jpg exists but cat.json does
not; the view still returns 404. -/
theorem view_image_404_when_metadata_absent_witness :
    view_image ⟨some "bucket", fun _ => .error (), .ok "https:u", "bg"⟩
      (some "cat.jpg") ⟨[], [("cat.jpg", .bytes "IMG")]⟩ =
      .text "Metadata not found" 404 :=
  view_image_404_when_metadata_absent
    ⟨some "bucket", fun _ => .error (), .ok "https:u", "bg"⟩
    ⟨[], [("cat.jpg", .bytes "IMG")]⟩ "cat.jpg" rfl (by simp) (by decide)

/-- After writing keys a then b, key a is bound to something (to the
second value if the keys collide, else to the first). -/
theorem getKey_setKey2_exists (m : ObjMap) (a b : String) (x y : ObjData) :
    ∃ c, getKey (setKey (setKey m a x) b y) a = some c := by
  by_cases h : b = a
  · exact ⟨y, by rw [h]; exact getKey_setKey_self _ _ _⟩
  · exact ⟨x, by rw [getKey_setKey_ne _ _ _ _ h]; exact getKey_setKey_self _ _ _⟩

/-- Behavior of the upload try-body on a valid request (file part
present, non-empty filename, no unexpected exception) whose image
upload succeeds at the transport level: both temp files are written, c
is whatever the temp image path holds when read back (the metadata
record if the filename itself ends in .json, the raw bytes otherwise),
the image object is stored under the filename, and the metadata upload
then either stores the record under the derived key (redirect) or
fails the request with 500, leaving the image object in place. -/
theorem upload_body_valid_spec (env : UploadEnv) (req : UploadRequest)
    (file : FilePart) (w : World) (c : ObjData)
    (hf : lookupPart req.files "image" = some file)
    (hn : file.filename ≠ "")
    (hs : env.saveExn = false) (hd : env.dumpExn = false)
    (h1 : env.gcsImgOk = true)
    (hc : getKey
        (setKey (setKey w.tmp ("/tmp/" ++ file.filename) (.bytes file.content))
          ("/tmp/" ++ (splitextRoot file.filename ++ ".json"))
          (.jsonFile ((generative_ai env.loads env.ai).title.getD "No title present")
            ((generative_ai env.loads env.ai).description.getD "No description present")))
        ("/tmp/" ++ file.filename) = some c) :
    upload_body env req w =
      ⟨(if env.gcsMetaOk then .redirect ("/view?filename=" ++ file.filename)
          else .text "File upload failed" 500),
        ⟨setKey (setKey w.tmp ("/tmp/" ++ file.filename) (.bytes file.content))
            ("/tmp/" ++ (splitextRoot file.filename ++ ".json"))
            (.jsonFile ((generative_ai env.loads env.ai).title.getD "No title present")
              ((generative_ai env.loads env.ai).description.getD "No description present")),
          (if env.gcsMetaOk then
            setKey (setKey w.store file.filename c)
              (splitextRoot file.filename ++ ".json")
              (.jsonFile ((generative_ai env.loads env.ai).title.getD "No title present")
                ((generative_ai env.loads env.ai).description.getD "No description present"))
          else setKey w.store file.filename c)⟩,
        some ("/tmp/" ++ file.filename),
        some ("/tmp/" ++ (splitextRoot file.filename ++ ".json")), true⟩ := by
  cases hm : env.gcsMetaOk <;>
    simp [upload_body, hf, hn, hs, hd, h1, hm, upload_to_gcs, hc, getKey_setKey_self]

/-- Claim C1: for a valid upload (file part present, non-empty
filename, no unexpected exception, both storage uploads succeed) on a
configured bucket, the response redirects to the view of the same
filename, and that view — run on the resulting store with a configured
bucket and a succeeding signer — renders exactly the title and
description produced during the upload (the AI result fields, a fixed
sentinel field when captioning failed, or the fixed placeholders when
the parsed response lacked a field): both handlers derive the same
metadata key by replacing the extension with .json, and the view reads
the very object the upload wrote. -/
theorem upload_then_view_roundtrip (ue : UploadEnv) (ve : ViewEnv)
    (req : UploadRequest) (file : FilePart) (w : World) (u : String)
    (hb : bucketUnset ue.bucket = false)
    (hvb : bucketUnset ve.bucket = false)
    (hf : lookupPart req.files "image" = some file)
    (hn : file.filename ≠ "")
    (hs : ue.saveExn = false) (hd : ue.dumpExn = false)
    (h1 : ue.gcsImgOk = true) (h2 : ue.gcsMetaOk = true)
    (hsig : ve.sign = .ok u) :
    (upload ue req w).resp = .redirect ("/view?filename=" ++ file.filename) ∧
    view_image ve (some file.filename) (upload ue req w).world =
      .renderView u
        ((generative_ai ue.loads ue.ai).title.getD "No title present")
        ((generative_ai ue.loads ue.ai).description.getD "No description present")
        ve.bg := by
  obtain ⟨c, hc⟩ := getKey_setKey2_exists w.tmp ("/tmp/" ++ file.filename)
    ("/tmp/" ++ (splitextRoot file.filename ++ ".json"))
    (.bytes file.content)
    (.jsonFile ((generative_ai ue.loads ue.ai).title.getD "No title present")
      ((generative_ai ue.loads ue.ai).description.getD "No description present"))
  have hbody := upload_body_valid_spec ue req file w c hf hn hs hd h1 hc
  simp only [h2, if_true] at hbody
  obtain ⟨c2, hc2⟩ := getKey_setKey2_exists w.store file.filename
    (splitextRoot file.filename ++ ".json") c
    (.jsonFile ((generative_ai ue.loads ue.ai).title.getD "No title present")
      ((generative_ai ue.loads ue.ai).description.getD "No description present"))
  refine ⟨by simp [upload, hb, hbody], ?_⟩
  simp [upload, hb, hbody, view_image, hn, hvb, loadsData,
    generate_temporary_url, getKey_setKey_self, hc2, hsig]

/-- Claim C4: on a configured bucket, an upload request with no image
file part is answered "No file uploaded" with 400, and one with an
empty filename "No file selected" with 400; in both cases the object
store and the temp directory are untouched and generative_ai is never
invoked. -/
theorem upload_invalid_request_400 (env : UploadEnv) (req : UploadRequest)
    (w : World) (hb : bucketUnset env.bucket = false)
    (h : lookupPart req.files "image" = none ∨
      ∃ file, lookupPart req.files "image" = some file ∧ file.filename = "") :
    ((upload env req w).resp = .text "No file uploaded" 400 ∨
      (upload env req w).resp = .text "No file selected" 400) ∧
    (upload env req w).resp.status = 400 ∧
    (upload env req w).world.store = w.store ∧
    (upload env req w).world.tmp = w.tmp ∧
    (upload env req w).aiCalled = false := by
  rcases h with h | ⟨file, hf, he⟩
  · simp [upload, upload_body, hb, h, finallyClean, HResp.status]
  · simp [upload, upload_body, hb, hf, he, finallyClean, HResp.status]

/-- Witness for C4 at concrete inputs: a request with no image part. -/
theorem upload_invalid_request_400_witness :
    ((upload ⟨some "bucket", fun _ => .error (), .uploadFail, false, false, true, true⟩
        ⟨[]⟩ ⟨[], []⟩).resp = .text "No file uploaded" 400 ∨
      (upload ⟨some "bucket", fun _ => .error (), .uploadFail, false, false, true, true⟩
        ⟨[]⟩ ⟨[], []⟩).resp = .text "No file selected" 400) ∧
    (upload ⟨some "bucket", fun _ => .error (), .uploadFail, false, false, true, true⟩
        ⟨[]⟩ ⟨[], []⟩).resp.status = 400 ∧
    (upload ⟨some "bucket", fun _ => .error (), .uploadFail, false, false, true, true⟩
        ⟨[]⟩ ⟨[], []⟩).world.store = ([] : ObjMap) ∧
    (upload ⟨some "bucket", fun _ => .error (), .uploadFail, false, false, true, true⟩
        ⟨[]⟩ ⟨[], []⟩).world.tmp = ([] : ObjMap) ∧
    (upload ⟨some "bucket", fun _ => .error (), .uploadFail, false, false, true, true⟩
        ⟨[]⟩ ⟨[], []⟩).aiCalled = false :=
  upload_invalid_request_400
    ⟨some "bucket", fun _ => .error (), .uploadFail, false, false, true, true⟩
    ⟨[]⟩ ⟨[], []⟩ rfl (.inl rfl)

/-- Claim C5: on a valid upload request where the image upload or the
metadata upload reports failure at the transport level, the response is
"File upload failed" with 500, and partial state is not rolled back:
when the image upload had succeeded, the image object is still present
in the final store. -/
theorem upload_storage_failure_500 (env : UploadEnv) (req : UploadRequest)
    (file : FilePart) (w : World)
    (hb : bucketUnset env.bucket = false)
    (hf : lookupPart req.files "image" = some file)
    (hn : file.filename ≠ "")
    (hs : env.saveExn = false) (hd : env.dumpExn = false)
    (hfail : env.gcsImgOk = false ∨ env.gcsMetaOk = false) :
    (upload env req w).resp = .text "File upload failed" 500 ∧
    (env.gcsImgOk = true →
      ∃ v, getKey (upload env req w).world.store file.filename = some v) := by
  cases himg : env.gcsImgOk with
  | false =>
    have hbody : upload_body env req w =
        ⟨.text "File upload failed" 500,
          ⟨setKey (setKey w.tmp ("/tmp/" ++ file.filename) (.bytes file.content))
              ("/tmp/" ++ (splitextRoot file.filename ++ ".json"))
              (.jsonFile ((generative_ai env.loads env.ai).title.getD "No title present")
                ((generative_ai env.loads env.ai).description.getD "No description present")),
            w.store⟩,
          some ("/tmp/" ++ file.filename),
          some ("/tmp/" ++ (splitextRoot file.filename ++ ".json")), true⟩ := by
      simp [upload_body, hf, hn, hs, hd, himg, upload_to_gcs]
    refine ⟨by simp [upload, hb, hbody], ?_⟩
    intro h
    exact Bool.noConfusion h
  | true =>
    have hm : env.gcsMetaOk = false := by
      rcases hfail with h | h
      · rw [himg] at h; exact Bool.noConfusion h
      · exact h
    obtain ⟨c, hc⟩ := getKey_setKey2_exists w.tmp ("/tmp/" ++ file.filename)
      ("/tmp/" ++ (splitextRoot file.filename ++ ".json")) (.bytes file.content)
      (.jsonFile ((generative_ai env.loads env.ai).title.getD "No title present")
        ((generative_ai env.loads env.ai).description.getD "No description present"))
    have hbody := upload_body_valid_spec env req file w c hf hn hs hd himg hc
    simp only [hm, if_false] at hbody
    refine ⟨by simp [upload, hb, hbody], ?_⟩
    intro _
    refine ⟨c, ?_⟩
    simp [upload, hb, hbody, getKey_setKey_self]

/-- Claim C10: the image object is uploaded first and the conjunction
short-circuits — whenever the image upload fails at the transport
level, the metadata upload is never attempted and the object store is
left exactly as it was, so a metadata object without its image can
never be created by the upload route. -/
theorem upload_image_failure_store_unchanged (env : UploadEnv)
    (req : UploadRequest) (w : World) (h : env.gcsImgOk = false) :
    (upload env req w).world.store = w.store := by
  by_cases hb : bucketUnset env.bucket = true
  · simp [upload, hb]
  · cases hf : lookupPart req.files "image" with
    | none => simp [upload, upload_body, hb, hf]
    | some file =>
      by_cases he : file.filename = ""
      · simp [upload, upload_body, hb, hf, he]
      · by_cases hs : env.saveExn = true
        · simp [upload, upload_body, hb, hf, he, hs]
        · by_cases hdmp : env.dumpExn = true
          · simp [upload, upload_body, hb, hf, he, hs, hdmp]
          · simp [upload, upload_body, upload_to_gcs, hb, hf, he, hs, hdmp, h]

/-- Witness for C10 at concrete inputs: the pre-existing store survives
an upload whose image transfer fails. -/
theorem upload_image_failure_store_unchanged_witness :
    (upload ⟨some "bucket", fun _ => .error (), .uploadFail, false, false, false, true⟩
        ⟨[("image", ⟨"cat.jpg", "IMG"⟩)]⟩
        ⟨[], [("old.jpg", .bytes "OLD")]⟩).world.store =
      [("old.jpg", .bytes "OLD")] :=
  upload_image_failure_store_unchanged
    ⟨some "bucket", fun _ => .error (), .uploadFail, false, false, false, true⟩
    ⟨[("image", ⟨"cat.jpg", "IMG"⟩)]⟩ ⟨[], [("old.jpg", .bytes "OLD")]⟩ rfl

/-- Claim C6: on every exit path of the upload route, the temp image
file and the temp metadata file recorded in temp_path and json_path
are gone from the temp directory when the request completes — the
finally block removes whatever of them exists. -/
theorem upload_temp_files_removed (env : UploadEnv) (req : UploadRequest)
    (w : World) (p : String) :
    ((upload env req w).temp_path = some p →
      getKey (upload env req w).world.tmp p = none) ∧
    ((upload env req w).json_path = some p →
      getKey (upload env req w).world.tmp p = none) := by
  by_cases hb : bucketUnset env.bucket = true
  · constructor <;> intro hp <;> simp [upload, hb] at hp
  · have hu : upload env req w =
        { upload_body env req w with
          world := ⟨finallyClean (upload_body env req w).world.tmp
            (upload_body env req w).temp_path (upload_body env req w).json_path,
            (upload_body env req w).world.store⟩ } := by
      simp [upload, hb]
    constructor <;> intro hp
    · rw [hu] at hp ⊢
      simp only at hp ⊢
      rw [hp]
      exact getKey_finallyClean_tp _ _ _
    · rw [hu] at hp ⊢
      simp only at hp ⊢
      rw [hp]
      exact getKey_finallyClean_jp _ _ _

/-- Witness for C1 at concrete inputs: uploading cat.jpg (captioning
fails with the upload sentinel) redirects to its view, and the view
renders the sentinel title and description stored during upload. -/
theorem upload_then_view_roundtrip_witness :
    (upload ⟨some "bucket", fun _ => .error (), .uploadFail, false, false, true, true⟩
        ⟨[("image", ⟨"cat.jpg", "IMG"⟩)]⟩ ⟨[], []⟩).resp =
      .redirect ("/view?filename=" ++ "cat.jpg") ∧
    view_image ⟨some "bucket", fun _ => .error (), .ok "https:u", "bg"⟩
        (some "cat.jpg")
        (upload ⟨some "bucket", fun _ => .error (), .uploadFail, false, false, true, true⟩
          ⟨[("image", ⟨"cat.jpg", "IMG"⟩)]⟩ ⟨[], []⟩).world =
      .renderView "https:u"
        ((generative_ai (fun _ => .error ()) .uploadFail).title.getD "No title present")
        ((generative_ai (fun _ => .error ()) .uploadFail).description.getD "No description present")
        "bg" :=
  upload_then_view_roundtrip
    ⟨some "bucket", fun _ => .error (), .uploadFail, false, false, true, true⟩
    ⟨some "bucket", fun _ => .error (), .ok "https:u", "bg"⟩
    ⟨[("image", ⟨"cat.jpg", "IMG"⟩)]⟩ ⟨"cat.jpg", "IMG"⟩ ⟨[], []⟩ "https:u"
    rfl rfl rfl (by decide) rfl rfl rfl rfl rfl

/-- Witness for C5 at concrete inputs: the image upload succeeds, the
metadata upload fails; the request answers 500 and the orphaned image
object remains stored. -/
theorem upload_storage_failure_500_witness :
    (upload ⟨some "bucket", fun _ => .error (), .uploadFail, false, false, true, false⟩
        ⟨[("image", ⟨"cat.jpg", "IMG"⟩)]⟩ ⟨[], []⟩).resp =
      .text "File upload failed" 500 ∧
    (∃ v, getKey
        (upload ⟨some "bucket", fun _ => .error (), .uploadFail, false, false, true, false⟩
          ⟨[("image", ⟨"cat.jpg", "IMG"⟩)]⟩ ⟨[], []⟩).world.store "cat.jpg" = some v) :=
  ⟨(upload_storage_failure_500
      ⟨some "bucket", fun _ => .error (), .uploadFail, false, false, true, false⟩
      ⟨[("image", ⟨"cat.jpg", "IMG"⟩)]⟩ ⟨"cat.jpg", "IMG"⟩ ⟨[], []⟩
      rfl rfl (by decide) rfl rfl (.inr rfl)).1,
    (upload_storage_failure_500
      ⟨some "bucket", fun _ => .error (), .uploadFail, false, false, true, false⟩
      ⟨[("image", ⟨"cat.jpg", "IMG"⟩)]⟩ ⟨"cat.jpg", "IMG"⟩ ⟨[], []⟩
      rfl rfl (by decide) rfl rfl (.inr rfl)).2 rfl⟩

/-- Witness for C6 at concrete inputs: after a fully successful upload
of cat.jpg, neither /tmp/cat.jpg nor /tmp/cat.json exists any more. -/
theorem upload_temp_files_removed_witness :
    getKey (upload ⟨some "bucket", fun _ => .error (), .uploadFail, false, false, true, true⟩
        ⟨[("image", ⟨"cat.jpg", "IMG"⟩)]⟩ ⟨[], []⟩).world.tmp "/tmp/cat.jpg" = none ∧
    getKey (upload ⟨some "bucket", fun _ => .error (), .uploadFail, false, false, true, true⟩
        ⟨[("image", ⟨"cat.jpg", "IMG"⟩)]⟩ ⟨[], []⟩).world.tmp "/tmp/cat.json" = none :=
  ⟨(upload_temp_files_removed
      ⟨some "bucket", fun _ => .error (), .uploadFail, false, false, true, true⟩
      ⟨[("image", ⟨"cat.jpg", "IMG"⟩)]⟩ ⟨[], []⟩ "/tmp/cat.jpg").1 (by decide),
    (upload_temp_files_removed
      ⟨some "bucket", fun _ => .error (), .uploadFail, false, false, true, true⟩
      ⟨[("image", ⟨"cat.jpg", "IMG"⟩)]⟩ ⟨[], []⟩ "/tmp/cat.json").2 (by decide)⟩
